import Mathlib

/-!
Verification of the client-side derivation layer of the kmeansfront
dashboard (src/App.tsx and src/types.ts).

Modelling conventions:
- JavaScript numbers carried by the payload (coordinates, distances,
  inertia) are idealised as rationals; Euclidean distances produced by
  Math.hypot are real numbers (square roots), so summary records carry a
  real-valued averageDistance.
- Array indexing a[i], which yields undefined out of range in
  JavaScript, is modelled as List.get? returning an Option.
- The two async handlers runSimulation and fetchPretrained are modelled
  as state-transition functions from the state before submission and the
  outcome of the network call to the state after the finally block ran.
-/

/-- Point record for a simulated neighborhood (types.ts). The optional
cluster field of the TypeScript type is only ever populated by
enrichment, so the raw record carries id and coordinates. -/
structure Neighborhood where
  id : ℤ
  x : ℚ
  y : ℚ
  deriving DecidableEq

/-- Hospital record (types.ts). -/
structure Hospital where
  id : ℤ
  x : ℚ
  y : ℚ
  deriving DecidableEq

/-- Per-cluster statistics block computed by the backend (types.ts). -/
structure ClusterStats where
  hospital_id : ℤ
  count : ℕ
  avg_distance : ℚ
  max_distance : ℚ
  deriving DecidableEq

/-- Histogram bin computed by the backend (types.ts). -/
structure DistanceBin where
  label : String
  count : ℕ
  deriving DecidableEq

/-- Raw payload of POST /kmeans/run (types.ts SimulationResponse). -/
structure SimulationResponse where
  neighborhoods : List Neighborhood
  hospitals : List Hospital
  assignments : List ℕ
  iterations : ℕ
  grid_size : ℕ
  inertia : ℚ
  overall_avg_distance : ℚ
  overall_max_distance : ℚ
  cluster_stats : List ClusterStats
  distance_bins : List DistanceBin
  deriving DecidableEq

/-- Form parameters m, n, k (types.ts SimulationParams). -/
structure SimulationParams where
  m : ℕ
  n : ℕ
  k : ℕ
  deriving DecidableEq

/-- Payload of GET /kmeans/pretrained (types.ts PretrainedModel). -/
structure PretrainedModel where
  k : ℕ
  hospitals : List (List ℚ)
  description : String
  deriving DecidableEq

/-- Neighborhood with the derived cluster label (App.tsx
EnrichedNeighborhood). The cluster is an Option because the JavaScript
expression assignments[idx] is undefined when idx is out of range of the
assignments array. -/
structure EnrichedNeighborhood where
  id : ℤ
  x : ℚ
  y : ℚ
  cluster : Option ℕ
  deriving DecidableEq

/-- SimulationResponse whose neighborhoods carry cluster labels (App.tsx
EnrichedResult). -/
structure EnrichedResult where
  neighborhoods : List EnrichedNeighborhood
  hospitals : List Hospital
  assignments : List ℕ
  iterations : ℕ
  grid_size : ℕ
  inertia : ℚ
  overall_avg_distance : ℚ
  overall_max_distance : ℚ
  cluster_stats : List ClusterStats
  distance_bins : List DistanceBin
  deriving DecidableEq

/-- Fixed eight-color palette (App.tsx clusterPalette). -/
def clusterPalette : List String :=
  ["#72efdd", "#ffbe0b", "#ff006e", "#00b4d8", "#9ef01a", "#f15bb5",
   "#f77f00", "#3a0ca3"]

/-- Color lookup used by CityMap and useClusterSummary:
clusterPalette[i % clusterPalette.length]. -/
def colorFor (i : ℕ) : String :=
  clusterPalette.getD (i % clusterPalette.length) ""

/-- Viewport constant viewBoxSize = 520 (App.tsx). -/
def viewBoxSize : ℚ := 520

/-- Viewport constant padding = 24 (App.tsx). -/
def mapPadding : ℚ := 24

/-- Drawable extent plotSize = viewBoxSize - padding * 2 (App.tsx). -/
def plotSize : ℚ := viewBoxSize - mapPadding * 2

/-- Coordinate projector of CityMap:
scalePoint value = padding + (value / Math.max(gridSize, 1)) * plotSize. -/
def scalePoint (gridSize : ℚ) (value : ℚ) : ℚ :=
  mapPadding + value / max gridSize 1 * plotSize

/-- Projection formula of section 4.1 of the spec, with explicit viewport
size and padding:
project v extent size pad = pad + (v / max(extent, 1)) * (size - 2*pad). -/
def project (v extent size pad : ℚ) : ℚ :=
  pad + v / max extent 1 * (size - 2 * pad)

/-- Enrichment step of runSimulation (App.tsx):
payload.neighborhoods.map((neighborhood, idx) =>
  (.. neighborhood, cluster: payload.assignments[idx])).
The positional index pairing of the map callback is rendered with
List.enum. -/
def enrich (r : SimulationResponse) : EnrichedResult :=
  { neighborhoods :=
      r.neighborhoods.enum.map (fun p =>
        { id := p.2.id, x := p.2.x, y := p.2.y
          cluster := r.assignments[p.1]? })
    hospitals := r.hospitals
    assignments := r.assignments
    iterations := r.iterations
    grid_size := r.grid_size
    inertia := r.inertia
    overall_avg_distance := r.overall_avg_distance
    overall_max_distance := r.overall_max_distance
    cluster_stats := r.cluster_stats
    distance_bins := r.distance_bins }

/-- Real-valued model of Math.hypot on two payload numbers. -/
noncomputable def hypot (a b : ℚ) : ℝ :=
  Real.sqrt ((a : ℝ) ^ 2 + (b : ℝ) ^ 2)

/-- View-only summary record produced by useClusterSummary (App.tsx). -/
structure ClusterSummary where
  id : ℤ
  color : String
  count : ℕ
  averageDistance : ℝ
  hospital : Hospital

/-- Neighborhoods of an enriched result whose cluster label equals idx;
the filter inside useClusterSummary. -/
def selectedFor (r : EnrichedResult) (idx : ℕ) : List EnrichedNeighborhood :=
  r.neighborhoods.filter (fun nb => decide (nb.cluster = some idx))

/-- Summary aggregator useClusterSummary (App.tsx):
result.hospitals.map((hospital, idx) => ..) building count and
averageDistance = assigned.reduce(sum + Math.hypot(..), 0)
  / Math.max(assigned.length, 1). -/
noncomputable def summarize (r : EnrichedResult) : List ClusterSummary :=
  r.hospitals.enum.map (fun p =>
    let assigned := r.neighborhoods.filter (fun nb => decide (nb.cluster = some p.1))
    { id := p.2.id
      color := clusterPalette.getD (p.1 % clusterPalette.length) ""
      count := assigned.length
      averageDistance :=
        (assigned.foldl
          (fun sum nb => sum + hypot (nb.x - p.2.x) (nb.y - p.2.y)) 0)
          / max (assigned.length : ℝ) 1
      hospital := p.2 })

/-- Left-pad a digit string with zeros to the requested width, used to
render the fractional part of a fixed-point number. -/
def zeroPad (d : ℕ) (s : String) : String :=
  String.mk (List.replicate (d - s.length) '0') ++ s

/-- Render a nonnegative scaled integer n as a decimal string with d
digits after the point. -/
def toFixedInt (d : ℕ) (n : ℕ) : String :=
  if d = 0 then Nat.repr n
  else Nat.repr (n / 10 ^ d) ++ "." ++ zeroPad d (Nat.repr (n % 10 ^ d))

/-- Model of Number.prototype.toFixed(d) on an idealised (rational)
JavaScript number: the ECMAScript specification picks the integer n
minimising the distance of n / 10^d to the value, the larger n on ties,
which is the floor of the scaled value plus one half. -/
def toFixedQ (d : ℕ) (x : ℚ) : String :=
  if ⌊x * (10 : ℚ) ^ d + 1 / 2⌋ < 0 then
    "-" ++ toFixedInt d (⌊x * (10 : ℚ) ^ d + 1 / 2⌋).natAbs
  else toFixedInt d (⌊x * (10 : ℚ) ^ d + 1 / 2⌋).toNat

/-- Kilometre formatter of App.tsx: formatKm value = value.toFixed(1)
followed by a km suffix. -/
def formatKm (value : ℚ) : String :=
  toFixedQ 1 value ++ " km"

/-- One KPI card of the statHighlights block (App.tsx). -/
structure Card where
  label : String
  value : String
  caption : String
  deriving DecidableEq

/-- The statHighlights derivation (App.tsx) for a present result: five
fixed cards in order. Numeric card values are rendered to strings the
way JSX renders them. -/
def statHighlights (r : EnrichedResult) : List Card :=
  [ { label := "Vecindarios simulados"
      value := Nat.repr r.neighborhoods.length
      caption := Nat.repr r.grid_size ++ " km de lado" },
    { label := "Hospitales sugeridos"
      value := Nat.repr r.hospitals.length
      caption := Nat.repr r.iterations ++ " iteraciones" },
    { label := "Distancia promedio"
      value := formatKm r.overall_avg_distance
      caption := "Promedio global" },
    { label := "Distancia máxima"
      value := formatKm r.overall_max_distance
      caption := "Caso más lejano" },
    { label := "Inercia total"
      value := toFixedQ 2 r.inertia
      caption := "Suma de distancias²" } ]

/-- Mutable view state of the App component (App.tsx useState slots). -/
structure AppState where
  params : SimulationParams
  gridSize : ℕ
  result : Option EnrichedResult
  loading : Bool
  error : Option String
  pretrained : Option PretrainedModel
  pretrainedLoading : Bool

/-- Initial state of the App component: params (20, 80, 4), gridSize 20,
no result, no error, nothing loading. -/
def initialState : AppState :=
  { params := { m := 20, n := 80, k := 4 }
    gridSize := 20
    result := none
    loading := false
    error := none
    pretrained := none
    pretrainedLoading := false }

/-- Outcome of the POST /kmeans/run network call, as observed by
runSimulation: a 2xx response with a payload, a non-2xx response whose
JSON body may or may not carry a detail string, or a thrown network or
decode error carrying a message. -/
inductive RunOutcome where
  | ok (payload : SimulationResponse)
  | httpErr (detail : Option String)
  | netErr (message : String)

/-- Outcome of the GET /kmeans/pretrained network call. -/
inductive PretrainedOutcome where
  | ok (payload : PretrainedModel)
  | err

/-- Net effect of the runSimulation handler (App.tsx) on the component
state once the await chain and the finally block have completed. On
success the enriched payload replaces the result and gridSize is set to
params.m; every failure path converts to a message written to the shared
error slot and leaves result and gridSize untouched. -/
def runSimulationComplete (s : AppState) (o : RunOutcome) : AppState :=
  match o with
  | RunOutcome.ok payload =>
      { s with result := some (enrich payload)
               gridSize := s.params.m
               error := none
               loading := false }
  | RunOutcome.httpErr detail =>
      { s with error := some (detail.getD "No se pudo ejecutar K-Means.")
               loading := false }
  | RunOutcome.netErr message =>
      { s with error := some message
               loading := false }

/-- Net effect of the fetchPretrained handler (App.tsx) on the component
state once the finally block has completed. Note that its failure branch
writes the same error slot as runSimulation. -/
def fetchPretrainedComplete (s : AppState) (o : PretrainedOutcome) : AppState :=
  match o with
  | PretrainedOutcome.ok payload =>
      { s with pretrained := some payload
               error := none
               pretrainedLoading := false }
  | PretrainedOutcome.err =>
      { s with error := some "No se encontró un modelo preentrenado disponible."
               pretrainedLoading := false }

/-- Error banner of the parameters panel (App.tsx line 373): it displays
the single error slot. -/
def errorBanner (s : AppState) : Option String :=
  s.error

/-- Axis extent the map projection uses: the gridSize prop passed to
CityMap (App.tsx line 401), which is the gridSize state slot. -/
def mapAxisExtent (s : AppState) : ℕ :=
  s.gridSize

/-- Concrete scenario of the spec for the summary aggregator: hospitals
at the origin and at the point ten-ten, one neighborhood at one-one in
cluster zero and one at nine-nine in cluster one. -/
def exampleEnriched : EnrichedResult :=
  { neighborhoods := [⟨1, 1, 1, some 0⟩, ⟨2, 9, 9, some 1⟩]
    hospitals := [⟨1, 0, 0⟩, ⟨2, 10, 10⟩]
    assignments := [0, 1]
    iterations := 1
    grid_size := 10
    inertia := 0
    overall_avg_distance := 0
    overall_max_distance := 0
    cluster_stats := []
    distance_bins := [] }

/-- Response violating the assignment invariant: the single assignment
value 5 is not a valid index into the one-element hospitals array. -/
def badResponse : SimulationResponse :=
  { neighborhoods := [⟨1, 2, 3⟩]
    hospitals := [⟨1, 0, 0⟩]
    assignments := [5]
    iterations := 1
    grid_size := 20
    inertia := 0
    overall_avg_distance := 0
    overall_max_distance := 0
    cluster_stats := []
    distance_bins := [] }

/-- Response whose grid_size field (10) differs from the submitted
parameter m (20 in initialState). -/
def mismatchResponse : SimulationResponse :=
  { neighborhoods := [⟨1, 3, 4⟩]
    hospitals := [⟨1, 0, 0⟩]
    assignments := [0]
    iterations := 3
    grid_size := 10
    inertia := 0
    overall_avg_distance := 0
    overall_max_distance := 0
    cluster_stats := []
    distance_bins := [] }

/-- Pointwise description of the enriched neighborhoods array: position i
carries the input record at position i together with the cluster label
assignments[i]. -/
lemma enrich_neighborhoods_getElem (r : SimulationResponse) (i : ℕ) :
    (enrich r).neighborhoods[i]? =
      (r.neighborhoods[i]?).map (fun nb =>
        { id := nb.id, x := nb.x, y := nb.y, cluster := r.assignments[i]? }) := by
  unfold enrich
  rw [List.getElem?_map, List.getElem?_enum]
  cases r.neighborhoods[i]? <;> rfl

/-- C1. Enrichment preserves the length and order of the neighborhoods
array and every other field of the response; the neighborhood at index i
keeps its id and coordinates and gains the cluster label assignments[i],
a join that is positional by array index. -/
theorem enrich_positional_join (r : SimulationResponse) :
    (enrich r).neighborhoods.length = r.neighborhoods.length ∧
    (enrich r).hospitals = r.hospitals ∧
    (enrich r).assignments = r.assignments ∧
    (enrich r).iterations = r.iterations ∧
    (enrich r).grid_size = r.grid_size ∧
    (enrich r).inertia = r.inertia ∧
    (enrich r).overall_avg_distance = r.overall_avg_distance ∧
    (enrich r).overall_max_distance = r.overall_max_distance ∧
    (enrich r).cluster_stats = r.cluster_stats ∧
    (enrich r).distance_bins = r.distance_bins ∧
    ∀ (i : ℕ) (nb : Neighborhood), r.neighborhoods[i]? = some nb →
      (enrich r).neighborhoods[i]? =
        some { id := nb.id, x := nb.x, y := nb.y, cluster := r.assignments[i]? } := by
  refine ⟨by simp [enrich], rfl, rfl, rfl, rfl, rfl, rfl, rfl, rfl, rfl, ?_⟩
  intro i nb h
  rw [enrich_neighborhoods_getElem, h]
  rfl

/-- Witness for C1 at a concrete response and index zero. -/
theorem enrich_positional_join_witness :
    mismatchResponse.neighborhoods[0]? = some ⟨1, 3, 4⟩ ∧
    (enrich mismatchResponse).neighborhoods[0]? = some ⟨1, 3, 4, some 0⟩ :=
  ⟨rfl,
    (enrich_positional_join mismatchResponse).2.2.2.2.2.2.2.2.2.2 0 ⟨1, 3, 4⟩ rfl⟩

/-- Sum of a pointwise sum of two natural-valued functions over a list
splits into two sums. -/
lemma list_sum_map_add {α : Type _} (L : List α) (f g : α → ℕ) :
    (L.map (fun a => f a + g a)).sum = (L.map f).sum + (L.map g).sum := by
  induction L with
  | nil => rfl
  | cons a L ih => simp only [List.map_cons, List.sum_cons, ih]; omega

/-- Indicator sum over a range that misses the hit index is zero. -/
lemma indicator_sum_zero (c : ℕ) :
    ∀ k : ℕ, k ≤ c →
      ((List.range k).map (fun idx => if c = idx then 1 else 0)).sum = 0 := by
  intro k
  induction k with
  | zero => intro _; rfl
  | succ k ih =>
    intro h
    rw [List.range_succ, List.map_append, List.sum_append, ih (Nat.le_of_succ_le h)]
    have hck : c ≠ k := by omega
    simp [hck]

/-- Indicator sum over a range that contains the hit index is one. -/
lemma indicator_sum_one (c : ℕ) :
    ∀ k : ℕ, c < k →
      ((List.range k).map (fun idx => if c = idx then 1 else 0)).sum = 1 := by
  intro k
  induction k with
  | zero => intro h; exact absurd h (Nat.not_lt_zero c)
  | succ k ih =>
    intro h
    rw [List.range_succ, List.map_append, List.sum_append]
    rcases Nat.lt_or_ge c k with hlt | hge
    · have hck : c ≠ k := by omega
      simp [ih hlt, hck]
    · have hck : c = k := by omega
      rw [indicator_sum_zero c k (by omega)]
      simp [hck]

/-- Bucket counting: when every element carries a cluster label below k,
summing the sizes of the k filter buckets recovers the list length. -/
lemma bucket_sum (k : ℕ) (l : List EnrichedNeighborhood)
    (hv : ∀ nb ∈ l, ∃ c, nb.cluster = some c ∧ c < k) :
    ((List.range k).map (fun idx =>
        (l.filter (fun nb => decide (nb.cluster = some idx))).length)).sum
      = l.length := by
  induction l with
  | nil => simp
  | cons x l ih =>
    obtain ⟨c, hc, hck⟩ := hv x (List.mem_cons_self x l)
    have hv2 : ∀ nb ∈ l, ∃ c, nb.cluster = some c ∧ c < k :=
      fun nb hm => hv nb (List.mem_cons_of_mem x hm)
    have hstep : ∀ idx : ℕ,
        ((x :: l).filter (fun nb => decide (nb.cluster = some idx))).length
          = (if c = idx then 1 else 0)
            + (l.filter (fun nb => decide (nb.cluster = some idx))).length := by
      intro idx
      rw [List.filter_cons]
      by_cases hci : c = idx
      · subst hci
        simp [hc]
        omega
      · have hx : ¬ (x.cluster = some idx) := by
          rw [hc]
          simp [hci]
        simp [hx, hci]
    calc ((List.range k).map (fun idx =>
            ((x :: l).filter (fun nb => decide (nb.cluster = some idx))).length)).sum
        = ((List.range k).map (fun idx =>
            (if c = idx then 1 else 0)
              + (l.filter (fun nb => decide (nb.cluster = some idx))).length)).sum := by
          congr 1
          exact List.map_congr_left (fun idx _ => hstep idx)
      _ = ((List.range k).map (fun idx => if c = idx then 1 else 0)).sum
            + ((List.range k).map (fun idx =>
                (l.filter (fun nb => decide (nb.cluster = some idx))).length)).sum :=
          list_sum_map_add _ _ _
      _ = 1 + l.length := by rw [indicator_sum_one c k hck, ih hv2]
      _ = (x :: l).length := by rw [List.length_cons]; omega

/-- Entry idx of the summary list, written with the filter bucket of idx
and the hospital found at idx. -/
lemma summarize_getElem (r : EnrichedResult) (idx : ℕ) (h : Hospital)
    (hh : r.hospitals[idx]? = some h) :
    (summarize r)[idx]? = some
      { id := h.id
        color := clusterPalette.getD (idx % clusterPalette.length) ""
        count := (selectedFor r idx).length
        averageDistance :=
          ((selectedFor r idx).foldl
            (fun sum nb => sum + hypot (nb.x - h.x) (nb.y - h.y)) 0)
            / max ((selectedFor r idx).length : ℝ) 1
        hospital := h } := by
  unfold summarize
  rw [List.getElem?_map, List.getElem?_enum, hh]
  rfl

/-- Summary list has one entry per hospital. -/
lemma summarize_len (r : EnrichedResult) :
    (summarize r).length = r.hospitals.length := by
  unfold summarize
  rw [List.length_map, List.enum_length]

/-- The count column of the summary list is the bucket-size sequence over
hospital indices. -/
lemma summarize_count_map (r : EnrichedResult) :
    (summarize r).map ClusterSummary.count
      = (List.range r.hospitals.length).map (fun idx =>
          (r.neighborhoods.filter (fun nb => decide (nb.cluster = some idx))).length) := by
  unfold summarize
  rw [List.map_map, ← List.enum_map_fst r.hospitals, List.map_map]
  rfl

/-- C2. Summarize returns one ClusterSummary per hospital, in
hospital-array order, and when every cluster label is a valid hospital
index the per-hospital counts sum to the number of enriched
neighborhoods. -/
theorem summarize_per_hospital_counts (r : EnrichedResult) :
    (summarize r).length = r.hospitals.length ∧
    (∀ (idx : ℕ) (h : Hospital), r.hospitals[idx]? = some h →
       ∃ s : ClusterSummary, (summarize r)[idx]? = some s ∧
         s.hospital = h ∧ s.id = h.id) ∧
    ((∀ nb ∈ r.neighborhoods, ∃ c : ℕ, nb.cluster = some c ∧ c < r.hospitals.length) →
       ((summarize r).map ClusterSummary.count).sum = r.neighborhoods.length) := by
  refine ⟨summarize_len r, ?_, ?_⟩
  · intro idx h hh
    exact ⟨_, summarize_getElem r idx h hh, rfl, rfl⟩
  · intro hv
    rw [summarize_count_map, bucket_sum r.hospitals.length r.neighborhoods hv]

/-- Witness for C2 at the concrete two-hospital scenario. -/
theorem summarize_per_hospital_counts_witness :
    (∀ nb ∈ exampleEnriched.neighborhoods,
       ∃ c : ℕ, nb.cluster = some c ∧ c < exampleEnriched.hospitals.length) ∧
    exampleEnriched.hospitals[0]? = some ⟨1, 0, 0⟩ ∧
    ((summarize exampleEnriched).map ClusterSummary.count).sum
      = exampleEnriched.neighborhoods.length ∧
    ∃ s : ClusterSummary, (summarize exampleEnriched)[0]? = some s ∧
      s.hospital = ⟨1, 0, 0⟩ ∧ s.id = 1 := by
  have hv : ∀ nb ∈ exampleEnriched.neighborhoods,
      ∃ c : ℕ, nb.cluster = some c ∧ c < exampleEnriched.hospitals.length := by
    intro nb hm
    simp only [exampleEnriched, List.mem_cons, List.not_mem_nil, or_false] at hm
    rcases hm with h | h <;> subst h
    · exact ⟨0, rfl, by decide⟩
    · exact ⟨1, rfl, by decide⟩
  exact ⟨hv, rfl, (summarize_per_hospital_counts exampleEnriched).2.2 hv,
    (summarize_per_hospital_counts exampleEnriched).2.1 0 ⟨1, 0, 0⟩ rfl⟩

/-- The running-sum reduce of useClusterSummary equals the accumulator
plus the sum of the mapped distances. -/
lemma foldl_hypot (hx hy : ℚ) :
    ∀ (l : List EnrichedNeighborhood) (c : ℝ),
      l.foldl (fun sum nb => sum + hypot (nb.x - hx) (nb.y - hy)) c
        = c + (l.map (fun nb => hypot (nb.x - hx) (nb.y - hy))).sum := by
  intro l
  induction l with
  | nil => intro c; simp
  | cons a l ih =>
    intro c
    rw [List.foldl_cons, ih, List.map_cons, List.sum_cons]
    ring

/-- C3. Each summary entry divides the summed Euclidean distances of its
selected neighborhoods by max(count, 1), yielding exactly zero when no
neighborhood is assigned; in the concrete two-hospital scenario both
entries have count one and average distance the square root of two,
within one hundredth of 1.414. -/
theorem summarize_averageDistance :
    (∀ (r : EnrichedResult) (idx : ℕ) (h : Hospital), r.hospitals[idx]? = some h →
       ∃ s : ClusterSummary, (summarize r)[idx]? = some s ∧
         s.count = (selectedFor r idx).length ∧
         s.averageDistance =
           ((selectedFor r idx).map (fun nb => hypot (nb.x - h.x) (nb.y - h.y))).sum
             / max ((selectedFor r idx).length : ℝ) 1 ∧
         ((selectedFor r idx).length = 0 → s.averageDistance = 0)) ∧
    (∃ s0 s1 : ClusterSummary,
       (summarize exampleEnriched)[0]? = some s0 ∧
       (summarize exampleEnriched)[1]? = some s1 ∧
       s0.count = 1 ∧ s1.count = 1 ∧
       s0.averageDistance = Real.sqrt 2 ∧ s1.averageDistance = Real.sqrt 2 ∧
       |s0.averageDistance - 1.414| < 1 / 100) := by
  have main : ∀ (r : EnrichedResult) (idx : ℕ) (h : Hospital),
      r.hospitals[idx]? = some h →
      ∃ s : ClusterSummary, (summarize r)[idx]? = some s ∧
        s.count = (selectedFor r idx).length ∧
        s.averageDistance =
          ((selectedFor r idx).map (fun nb => hypot (nb.x - h.x) (nb.y - h.y))).sum
            / max ((selectedFor r idx).length : ℝ) 1 ∧
        ((selectedFor r idx).length = 0 → s.averageDistance = 0) := by
    intro r idx h hh
    refine ⟨_, summarize_getElem r idx h hh, rfl, ?_, ?_⟩
    · show ((selectedFor r idx).foldl
          (fun sum nb => sum + hypot (nb.x - h.x) (nb.y - h.y)) 0)
            / max ((selectedFor r idx).length : ℝ) 1 = _
      rw [foldl_hypot h.x h.y (selectedFor r idx) 0, zero_add]
    · intro h0
      have hsel : selectedFor r idx = [] := List.length_eq_zero.mp h0
      show ((selectedFor r idx).foldl
          (fun sum nb => sum + hypot (nb.x - h.x) (nb.y - h.y)) 0)
            / max ((selectedFor r idx).length : ℝ) 1 = 0
      rw [hsel]
      norm_num
  have hl : (1.414 : ℝ) < Real.sqrt 2 := by
    rw [Real.lt_sqrt (by norm_num)]
    norm_num
  have hu : Real.sqrt 2 < 1.415 := by
    rw [Real.sqrt_lt' (by norm_num)]
    norm_num
  refine ⟨main, ?_⟩
  obtain ⟨s0, h0, hc0, ha0, _⟩ := main exampleEnriched 0 ⟨1, 0, 0⟩ rfl
  obtain ⟨s1, h1, hc1, ha1, _⟩ := main exampleEnriched 1 ⟨2, 10, 10⟩ rfl
  have hsel0 : selectedFor exampleEnriched 0 = [⟨1, 1, 1, some 0⟩] := rfl
  have hsel1 : selectedFor exampleEnriched 1 = [⟨2, 9, 9, some 1⟩] := rfl
  have hA0 : s0.averageDistance = Real.sqrt 2 := by
    rw [ha0, hsel0]
    simp [hypot]
    norm_num
  have hA1 : s1.averageDistance = Real.sqrt 2 := by
    rw [ha1, hsel1]
    simp [hypot]
    norm_num
  refine ⟨s0, s1, h0, h1, by rw [hc0, hsel0]; rfl, by rw [hc1, hsel1]; rfl,
    hA0, hA1, ?_⟩
  rw [hA0, abs_lt]
  constructor <;> nlinarith

/-- Witness for C3 at the concrete scenario and hospital index zero. -/
theorem summarize_averageDistance_witness :
    exampleEnriched.hospitals[0]? = some ⟨1, 0, 0⟩ ∧
    ∃ s : ClusterSummary, (summarize exampleEnriched)[0]? = some s ∧
      s.count = (selectedFor exampleEnriched 0).length ∧
      s.averageDistance =
        ((selectedFor exampleEnriched 0).map
            (fun nb => hypot (nb.x - 0) (nb.y - 0))).sum
          / max ((selectedFor exampleEnriched 0).length : ℝ) 1 ∧
      ((selectedFor exampleEnriched 0).length = 0 → s.averageDistance = 0) :=
  ⟨rfl, summarize_averageDistance.1 exampleEnriched 0 ⟨1, 0, 0⟩ rfl⟩

/-- C6. At badResponse the assignment value 5 is not a valid hospital
index, yet enrichment neither fails nor produces an undefined-cluster
marker: it silently attaches the invalid cluster index 5 to the
neighborhood. -/
theorem enrich_silently_attaches_invalid_index :
    (enrich badResponse).neighborhoods.map EnrichedNeighborhood.cluster = [some 5] ∧
    badResponse.hospitals.length = 1 ∧
    ¬ (enrich badResponse).neighborhoods.map EnrichedNeighborhood.cluster = [none] :=
  ⟨rfl, rfl, by decide⟩

/-- C4 (amended). The code projector scalePoint equals the spec formula
with the fixed viewport constants; within a positive extent and a
viewport at least twice the padding the image stays in the padded band,
value zero maps to pad, and the upper endpoint maps to size - pad
whenever extent is at least one (the max floor on the denominator makes
the upper endpoint fall short for extents below one). -/
theorem scalePoint_project_bounds :
    (∀ g v : ℚ, scalePoint g v = project v g viewBoxSize mapPadding) ∧
    (∀ v extent size pad : ℚ, 0 < extent → 0 ≤ v → v ≤ extent → 2 * pad ≤ size →
       pad ≤ project v extent size pad ∧ project v extent size pad ≤ size - pad) ∧
    (∀ extent size pad : ℚ, project 0 extent size pad = pad) ∧
    (∀ extent size pad : ℚ, 1 ≤ extent →
       project extent extent size pad = size - pad) := by
  refine ⟨?_, ?_, ?_, ?_⟩
  · intro g v
    simp only [scalePoint, project, viewBoxSize, mapPadding, plotSize]
    norm_num
  · intro v extent size pad hex hv hve hps
    have hm1 : (1 : ℚ) ≤ max extent 1 := le_max_right _ _
    have hm0 : (0 : ℚ) < max extent 1 := lt_of_lt_of_le one_pos hm1
    have ht0 : 0 ≤ v / max extent 1 := div_nonneg hv hm0.le
    have ht1 : v / max extent 1 ≤ 1 := by
      rw [div_le_one hm0]
      exact le_trans hve (le_max_left _ _)
    have hs : (0 : ℚ) ≤ size - 2 * pad := by linarith
    constructor
    · unfold project
      nlinarith
    · unfold project
      nlinarith
  · intro extent size pad
    unfold project
    simp
  · intro extent size pad h1
    have h0 : extent ≠ 0 := ne_of_gt (lt_of_lt_of_le one_pos h1)
    unfold project
    rw [max_eq_left h1, div_self h0]
    ring

/-- Witness for C4 at extent 20, value 5, viewport 520 and padding 24. -/
theorem scalePoint_project_bounds_witness :
    ((0 : ℚ) < 20 ∧ (0 : ℚ) ≤ 5 ∧ (5 : ℚ) ≤ 20 ∧ (2 : ℚ) * 24 ≤ 520) ∧
    (24 ≤ project 5 20 520 24 ∧ project 5 20 520 24 ≤ 520 - 24) ∧
    ((1 : ℚ) ≤ 20 ∧ project 20 20 520 24 = 520 - 24) :=
  ⟨⟨by norm_num, by norm_num, by norm_num, by norm_num⟩,
    scalePoint_project_bounds.2.1 5 20 520 24 (by norm_num) (by norm_num)
      (by norm_num) (by norm_num),
    by norm_num,
    scalePoint_project_bounds.2.2.2 20 520 24 (by norm_num)⟩

/-- Counterexample for C4 as stated: at the positive extent one half the
upper endpoint does not map to size - pad. -/
theorem project_upper_endpoint_cex :
    (0 : ℚ) < 1 / 2 ∧ project (1 / 2) (1 / 2) 520 24 ≠ 520 - 24 := by
  constructor
  · norm_num
  · unfold project
    norm_num

/-- C5. The palette has at least eight pairwise distinct colors and the
color lookup indexes it modulo its length, hence is cyclic with period
the palette length. -/
theorem colorFor_cyclic_palette :
    8 ≤ clusterPalette.length ∧ clusterPalette.Nodup ∧
    ∀ i : ℕ, colorFor (i + clusterPalette.length) = colorFor i := by
  refine ⟨by decide, by decide, ?_⟩
  intro i
  show clusterPalette.getD ((i + clusterPalette.length) % clusterPalette.length) ""
      = clusterPalette.getD (i % clusterPalette.length) ""
  rw [Nat.add_mod_right]

/-- C7. A non-2xx completion of runSimulation surfaces exactly the
detail string of the JSON body when one is present and the generic
message otherwise, and leaves the prior result, grid size, parameters
and pretrained data untouched. -/
theorem runSimulation_failure_surfaces_detail (s : AppState) (d : Option String) :
    (runSimulationComplete s (RunOutcome.httpErr d)).error
        = some (d.getD "No se pudo ejecutar K-Means.") ∧
    (runSimulationComplete s (RunOutcome.httpErr (some "bad k"))).error = some "bad k" ∧
    (runSimulationComplete s (RunOutcome.httpErr none)).error
        = some "No se pudo ejecutar K-Means." ∧
    (runSimulationComplete s (RunOutcome.httpErr d)).result = s.result ∧
    (runSimulationComplete s (RunOutcome.httpErr d)).gridSize = s.gridSize ∧
    (runSimulationComplete s (RunOutcome.httpErr d)).params = s.params ∧
    (runSimulationComplete s (RunOutcome.httpErr d)).pretrained = s.pretrained :=
  ⟨rfl, rfl, rfl, rfl, rfl, rfl, rfl⟩

/-- C8 (amended). Each network operation has its own loading flag and
never touches the other operation's loading flag or data slots, but the
two share the single error slot behind the inline banner: both failure
paths write it. -/
theorem independent_flags_shared_error_slot (s : AppState) (o : RunOutcome)
    (o2 : PretrainedOutcome) :
    (runSimulationComplete s o).pretrainedLoading = s.pretrainedLoading ∧
    (runSimulationComplete s o).pretrained = s.pretrained ∧
    (fetchPretrainedComplete s o2).loading = s.loading ∧
    (fetchPretrainedComplete s o2).result = s.result ∧
    (fetchPretrainedComplete s o2).gridSize = s.gridSize ∧
    errorBanner (fetchPretrainedComplete s PretrainedOutcome.err)
        = some "No se encontró un modelo preentrenado disponible." ∧
    errorBanner (runSimulationComplete s (RunOutcome.httpErr none))
        = some "No se pudo ejecutar K-Means." := by
  cases o <;> cases o2 <;> exact ⟨rfl, rfl, rfl, rfl, rfl, rfl, rfl⟩

/-- Counterexample for C8 as stated: after a failed run leaves the
message bad k in the banner, a failed pretrained fetch overwrites the
very slot that displayed the run error. -/
theorem pretrained_failure_overwrites_run_error :
    errorBanner (runSimulationComplete initialState (RunOutcome.httpErr (some "bad k")))
        = some "bad k" ∧
    errorBanner (fetchPretrainedComplete
        (runSimulationComplete initialState (RunOutcome.httpErr (some "bad k")))
        PretrainedOutcome.err)
        = some "No se encontró un modelo preentrenado disponible." ∧
    errorBanner (fetchPretrainedComplete
        (runSimulationComplete initialState (RunOutcome.httpErr (some "bad k")))
        PretrainedOutcome.err) ≠ some "bad k" := by
  refine ⟨rfl, rfl, ?_⟩
  decide

/-- C9. The KPI block is exactly five fixed cards in order, the distance
cards formatted to one decimal place with a km suffix and the inertia
card to two decimal places; the stated fixtures format as claimed. -/
theorem statHighlights_five_kpi_cards (r : EnrichedResult) :
    statHighlights r =
      [ { label := "Vecindarios simulados"
          value := Nat.repr r.neighborhoods.length
          caption := Nat.repr r.grid_size ++ " km de lado" },
        { label := "Hospitales sugeridos"
          value := Nat.repr r.hospitals.length
          caption := Nat.repr r.iterations ++ " iteraciones" },
        { label := "Distancia promedio"
          value := formatKm r.overall_avg_distance
          caption := "Promedio global" },
        { label := "Distancia máxima"
          value := formatKm r.overall_max_distance
          caption := "Caso más lejano" },
        { label := "Inercia total"
          value := toFixedQ 2 r.inertia
          caption := "Suma de distancias²" } ] ∧
    (statHighlights r).length = 5 ∧
    formatKm (314159 / 100000) = "3.1 km" ∧
    toFixedQ 2 (123456 / 10000) = "12.35" := by
  refine ⟨rfl, rfl, ?_, ?_⟩
  · have h31 : ⌊(314159 / 100000 : ℚ) * (10 : ℚ) ^ (1 : ℕ) + 1 / 2⌋ = (31 : ℤ) := by
      rw [Int.floor_eq_iff]
      constructor <;> norm_num
    show toFixedQ 1 (314159 / 100000) ++ " km" = "3.1 km"
    unfold toFixedQ
    rw [h31]
    decide
  · have h1235 : ⌊(123456 / 10000 : ℚ) * (10 : ℚ) ^ (2 : ℕ) + 1 / 2⌋ = (1235 : ℤ) := by
      rw [Int.floor_eq_iff]
      constructor <;> norm_num
    unfold toFixedQ
    rw [h1235]
    decide

/-- C10. After a successful run the map projection extent is the
submitted parameter m, while the KPI caption uses the grid_size field of
the response; at mismatchResponse (grid_size 10) submitted from
initialState (m 20) the two disagree and the projector places the same
coordinate differently under the two extents. -/
theorem map_extent_uses_submitted_m :
    (∀ (s : AppState) (p : SimulationResponse),
       mapAxisExtent (runSimulationComplete s (RunOutcome.ok p)) = s.params.m) ∧
    mapAxisExtent (runSimulationComplete initialState (RunOutcome.ok mismatchResponse)) = 20 ∧
    mismatchResponse.grid_size = 10 ∧
    ((statHighlights (enrich mismatchResponse))[0]?).map Card.caption
        = some "10 km de lado" ∧
    scalePoint ((mapAxisExtent (runSimulationComplete initialState
        (RunOutcome.ok mismatchResponse)) : ℕ) : ℚ) 10
      ≠ scalePoint ((mismatchResponse.grid_size : ℕ) : ℚ) 10 := by
  refine ⟨fun s p => rfl, rfl, rfl, rfl, ?_⟩
  show scalePoint ((20 : ℕ) : ℚ) 10 ≠ scalePoint ((10 : ℕ) : ℚ) 10
  simp only [scalePoint, mapPadding, plotSize, viewBoxSize]
  push_cast
  norm_num
